import Mathlib

/-!
Container lifecycle processors of the cell rep

A shallow embedding of `generator/internal/ordinary_lrp_processor.go`,
`generator/internal/task_processor.go`, the dispatcher of
`generator/internal/lrp_processor.go` and `handlers/perform_handler.go`.

The processors return nothing: all they do is call the store client (`bbs.InternalClient`)
and the container delegate.  A processor is therefore embedded as a function that threads
the list of calls made so far (`Trace`) and returns it extended; the answer of a
collaborator to a call may depend on every call made before it, which covers any stateful
store or delegate.  Logging is not a collaborator call and is left out.
-/

namespace Rep

/-! ## Data model (types of the executor and bbs libraries, reduced to what is read) -/

/-- The Go type `executor.State` is a string type. -/
abbrev State := String

def StateInvalid : State := ""
def StateReserved : State := "reserved"
def StateInitializing : State := "initializing"
def StateCreated : State := "created"
def StateRunning : State := "running"
def StateCompleted : State := "completed"

/-- The Go type `executor.Tags` is `map[string]string`, kept as an association list. -/
abbrev Tags := List (String × String)

/-- Go map indexing `tags[key]`: the zero value `""` when the key is absent. -/
def Tags.index (tags : Tags) (key : String) : String :=
  (tags.lookup key).getD ""

/-- The run result of a container (`executor.ContainerRunResult`). -/
structure ContainerRunResult where
  Failed : Bool
  FailureReason : String
  Retryable : Bool
  Stopped : Bool
deriving DecidableEq, Repr

/-- The container snapshot (`executor.Container`), with the fields the processors read. -/
structure Container where
  Guid : String
  State : State
  Tags : Tags
  RunResult : ContainerRunResult
deriving DecidableEq, Repr

/-- The record `models.ActualLRPKey`. -/
structure ActualLRPKey where
  ProcessGuid : String
  Index : Int
  Domain : String
deriving DecidableEq, Repr

/-- The record `models.ActualLRPInstanceKey`. -/
structure ActualLRPInstanceKey where
  InstanceGuid : String
  CellId : String
deriving DecidableEq, Repr

/-- The record `models.ActualLRPNetInfo`; the processors only pass it on. -/
structure ActualLRPNetInfo where
  Address : String
  Ports : List (Nat × Nat)
deriving DecidableEq, Repr

/-- The record `models.DesiredLRP`; the processors only pass it on. -/
structure DesiredLRP where
  ProcessGuid : String
  Definition : String
deriving DecidableEq, Repr

/-- The record `models.Task`; the processors only pass it on. -/
structure Task where
  TaskGuid : String
  Definition : String
deriving DecidableEq, Repr

/-- The record `executor.RunRequest`; the processors only pass it on. -/
structure RunRequest where
  Guid : String
  RunInfo : String
deriving DecidableEq, Repr

/-- The error kinds of `models.Error_Type`: the four the processors test for, the kind
`ConvertError` gives to a foreign error, and the remaining kinds by their number. -/
inductive ErrorType where
  | UnknownError
  | InvalidStateTransition
  | ResourceNotFound
  | ActualLRPCannotBeClaimed
  | ActualLRPCannotBeStarted
  | Other (code : Nat)
deriving DecidableEq, Repr

/-- The record `models.Error`. -/
structure BBSError where
  Type_ : ErrorType
  Message : String
deriving DecidableEq, Repr

/-- A non-nil Go `error`: a `*models.Error`, or an error of any other dynamic type. -/
inductive GoError where
  | bbs (e : BBSError)
  | foreign (msg : String)
deriving DecidableEq, Repr

/-- The function `models.ConvertError`; `none` is the nil error. -/
def ConvertError : Option GoError → Option BBSError
  | none => none
  | some (GoError.bbs e) => some e
  | some (GoError.foreign msg) => some ⟨ErrorType.UnknownError, msg⟩

/-- The kind of an error as the processors see it, through `ConvertError`. -/
def errorType (err : Option GoError) : Option ErrorType :=
  (ConvertError err).map (fun e => e.Type_)

/-! ## Collaborators -/

/-- One call to the store client or to the container delegate, with its arguments. -/
inductive Call where
  | ClaimActualLRP (key : ActualLRPKey) (instanceKey : ActualLRPInstanceKey)
  | DesiredLRPByProcessGuid (processGuid : String)
  | RemoveActualLRP (key : ActualLRPKey) (instanceKey : ActualLRPInstanceKey)
  | StartActualLRP (key : ActualLRPKey) (instanceKey : ActualLRPInstanceKey)
      (netInfo : ActualLRPNetInfo)
  | CrashActualLRP (key : ActualLRPKey) (instanceKey : ActualLRPInstanceKey)
      (reason : String)
  | StartTask (guid cellID : String)
  | TaskByGuid (guid : String)
  | CompleteTask (guid cellID : String) (failed : Bool) (reason result : String)
  | RejectTask (guid reason : String)
  | RunContainer (req : RunRequest)
  | StopContainer (guid : String)
  | DeleteContainer (guid : String)
  | FetchContainerResultFile (guid filename : String)
deriving DecidableEq, Repr

/-- The calls made so far, oldest first. -/
abbrev Trace := List Call

/-- Whether a call is a run request to the container delegate. -/
def Call.isRunContainer : Call → Bool
  | Call.RunContainer _ => true
  | _ => false

/-- Whether a call is a complete-task call to the store. -/
def Call.isCompleteTask : Call → Bool
  | Call.CompleteTask _ _ _ _ _ => true
  | _ => false

/-- Whether a call is a fetch of a result file from the container delegate. -/
def Call.isFetchContainerResultFile : Call → Bool
  | Call.FetchContainerResultFile _ _ => true
  | _ => false

/-- The answers of the store client (`bbs.InternalClient`), each a function of the calls
made before and of the arguments.  An `error` result is `none` for nil. -/
structure BBSClient where
  ClaimActualLRP : Trace → ActualLRPKey → ActualLRPInstanceKey → Option GoError
  DesiredLRPByProcessGuid : Trace → String → Except GoError DesiredLRP
  RemoveActualLRP : Trace → ActualLRPKey → ActualLRPInstanceKey → Option GoError
  StartActualLRP : Trace → ActualLRPKey → ActualLRPInstanceKey → ActualLRPNetInfo →
    Option GoError
  CrashActualLRP : Trace → ActualLRPKey → ActualLRPInstanceKey → String → Option GoError
  StartTask : Trace → String → String → Bool × Option GoError
  TaskByGuid : Trace → String → Except GoError Task
  CompleteTask : Trace → String → String → Bool → String → String → Option GoError
  RejectTask : Trace → String → String → Option GoError

/-- The answers of the container delegate.  `StopContainer` and `DeleteContainer` have no
answer here: every caller discards their result. -/
structure ContainerDelegate where
  RunContainer : Trace → RunRequest → Bool
  FetchContainerResultFile : Trace → String → String → Except GoError String

/-- The functions and the constant of the root package `rep` that the processors use and
whose source is not part of the embedded files; they are parameters of the embedding. -/
structure RepPackage where
  ActualLRPKeyFromTags : Tags → Except GoError ActualLRPKey
  ActualLRPInstanceKeyFromContainer : Container → String → Except GoError ActualLRPInstanceKey
  ActualLRPNetInfoFromContainer : Container → Except GoError ActualLRPNetInfo
  NewRunRequestFromDesiredLRP : String → DesiredLRP → ActualLRPKey → ActualLRPInstanceKey →
    Except GoError RunRequest
  NewRunRequestFromTask : Task → Except GoError RunRequest
  ResultFileTag : String

/-! ## `lrp_processor.go`: the container with its keys -/

/-- The struct `lrpContainer`: both keys and the container, embedded. -/
structure lrpContainer where
  ActualLRPKey : ActualLRPKey
  ActualLRPInstanceKey : ActualLRPInstanceKey
  Container : Container
deriving DecidableEq, Repr

def newLRPContainer (lrpKey : ActualLRPKey) (instanceKey : ActualLRPInstanceKey)
    (container : Container) : lrpContainer :=
  { ActualLRPKey := lrpKey, ActualLRPInstanceKey := instanceKey, Container := container }

/-! ## `ordinary_lrp_processor.go` -/

structure ordinaryLRPProcessor where
  bbsClient : BBSClient
  containerDelegate : ContainerDelegate
  cellID : String

namespace ordinaryLRPProcessor

/-- The method `claimLRPContainer`.  When `err` is not nil `ConvertError err` is not nil
either; the last branch stands for the nil dereference, after which nothing is called. -/
def claimLRPContainer (p : ordinaryLRPProcessor) (c : lrpContainer) (tr : Trace) :
    Bool × Trace :=
  let err := p.bbsClient.ClaimActualLRP tr c.ActualLRPKey c.ActualLRPInstanceKey
  let tr := tr ++ [Call.ClaimActualLRP c.ActualLRPKey c.ActualLRPInstanceKey]
  let bbsErr := ConvertError err
  match err, bbsErr with
  | none, _ => (true, tr)
  | some _, some e =>
    if e.Type_ = ErrorType.ActualLRPCannotBeClaimed then
      (false, tr ++ [Call.DeleteContainer c.Container.Guid])
    else
      (false, tr)
  | some _, none => (false, tr)

/-- The method `processReservedContainer`. -/
def processReservedContainer (rep : RepPackage) (p : ordinaryLRPProcessor)
    (c : lrpContainer) (tr : Trace) : Trace :=
  match p.claimLRPContainer c tr with
  | (false, tr) => tr
  | (true, tr) =>
    match p.bbsClient.DesiredLRPByProcessGuid tr c.ActualLRPKey.ProcessGuid with
    | Except.error _ => tr ++ [Call.DesiredLRPByProcessGuid c.ActualLRPKey.ProcessGuid]
    | Except.ok desired =>
      let tr := tr ++ [Call.DesiredLRPByProcessGuid c.ActualLRPKey.ProcessGuid]
      match rep.NewRunRequestFromDesiredLRP c.Container.Guid desired c.ActualLRPKey
          c.ActualLRPInstanceKey with
      | Except.error _ => tr
      | Except.ok runReq =>
        let ok := p.containerDelegate.RunContainer tr runReq
        let tr := tr ++ [Call.RunContainer runReq]
        if !ok then
          tr ++ [Call.RemoveActualLRP c.ActualLRPKey c.ActualLRPInstanceKey]
        else
          tr

/-- The method `processInitializingContainer`. -/
def processInitializingContainer (p : ordinaryLRPProcessor) (c : lrpContainer)
    (tr : Trace) : Trace :=
  (p.claimLRPContainer c tr).2

/-- The method `processCreatedContainer`. -/
def processCreatedContainer (p : ordinaryLRPProcessor) (c : lrpContainer)
    (tr : Trace) : Trace :=
  (p.claimLRPContainer c tr).2

/-- The method `processRunningContainer`. -/
def processRunningContainer (rep : RepPackage) (p : ordinaryLRPProcessor)
    (c : lrpContainer) (tr : Trace) : Trace :=
  match rep.ActualLRPNetInfoFromContainer c.Container with
  | Except.error _ => tr
  | Except.ok netInfo =>
    let err := p.bbsClient.StartActualLRP tr c.ActualLRPKey c.ActualLRPInstanceKey netInfo
    let tr := tr ++ [Call.StartActualLRP c.ActualLRPKey c.ActualLRPInstanceKey netInfo]
    match ConvertError err with
    | some bbsErr =>
      if bbsErr.Type_ = ErrorType.ActualLRPCannotBeStarted then
        tr ++ [Call.StopContainer c.Container.Guid]
      else
        tr
    | none => tr

/-- The method `processCompletedContainer`; the errors of both store calls are only
logged. -/
def processCompletedContainer (_p : ordinaryLRPProcessor) (c : lrpContainer)
    (tr : Trace) : Trace :=
  let tr :=
    if c.Container.RunResult.Stopped then
      tr ++ [Call.RemoveActualLRP c.ActualLRPKey c.ActualLRPInstanceKey]
    else
      tr ++ [Call.CrashActualLRP c.ActualLRPKey c.ActualLRPInstanceKey
        c.Container.RunResult.FailureReason]
  tr ++ [Call.DeleteContainer c.Container.Guid]

/-- The method `processInvalidContainer`: it logs, and calls nothing. -/
def processInvalidContainer (_p : ordinaryLRPProcessor) (_c : lrpContainer)
    (tr : Trace) : Trace :=
  tr

/-- The method `Process`: the calls made for one container, oldest first. -/
def Process (rep : RepPackage) (p : ordinaryLRPProcessor) (container : Container) : Trace :=
  match rep.ActualLRPKeyFromTags container.Tags with
  | Except.error _ => []
  | Except.ok lrpKey =>
    match rep.ActualLRPInstanceKeyFromContainer container p.cellID with
    | Except.error _ => []
    | Except.ok instanceKey =>
      let c := newLRPContainer lrpKey instanceKey container
      if c.Container.State = StateReserved then
        processReservedContainer rep p c []
      else if c.Container.State = StateInitializing then
        processInitializingContainer p c []
      else if c.Container.State = StateCreated then
        processCreatedContainer p c []
      else if c.Container.State = StateRunning then
        processRunningContainer rep p c []
      else if c.Container.State = StateCompleted then
        processCompletedContainer p c []
      else
        processInvalidContainer p c []

end ordinaryLRPProcessor

/-! ## `task_processor.go` -/

def TaskCompletionReasonMissingContainer : String := "task container does not exist"
def TaskCompletionReasonFailedToRunContainer : String := "failed to run container"
def TaskCompletionReasonInvalidTransition : String := "invalid state transition"
def TaskCompletionReasonFailedToFetchResult : String := "failed to fetch result"

structure taskProcessor where
  bbsClient : BBSClient
  containerDelegate : ContainerDelegate
  cellID : String

namespace taskProcessor

/-- The method `startTask`.  As in `claimLRPContainer`, the branch with a non-nil `err` and
a nil `ConvertError err` stands for the nil dereference. -/
def startTask (p : taskProcessor) (guid : String) (tr : Trace) : Bool × Trace :=
  let (changed, err) := p.bbsClient.StartTask tr guid p.cellID
  let tr := tr ++ [Call.StartTask guid p.cellID]
  match err with
  | some e =>
    match ConvertError (some e) with
    | some bbsErr =>
      match bbsErr.Type_ with
      | ErrorType.InvalidStateTransition => (false, tr ++ [Call.DeleteContainer guid])
      | ErrorType.ResourceNotFound => (false, tr ++ [Call.DeleteContainer guid])
      | _ => (false, tr)
    | none => (false, tr)
  | none => (changed, tr)

/-- The method `processActiveContainer`. -/
def processActiveContainer (rep : RepPackage) (p : taskProcessor) (container : Container)
    (tr : Trace) : Trace :=
  match p.startTask container.Guid tr with
  | (false, tr) => tr
  | (true, tr) =>
    match p.bbsClient.TaskByGuid tr container.Guid with
    | Except.error _ => tr ++ [Call.TaskByGuid container.Guid]
    | Except.ok task =>
      let tr := tr ++ [Call.TaskByGuid container.Guid]
      match rep.NewRunRequestFromTask task with
      | Except.error _ => tr
      | Except.ok runReq =>
        let ok := p.containerDelegate.RunContainer tr runReq
        let tr := tr ++ [Call.RunContainer runReq]
        if !ok then
          tr ++ [Call.CompleteTask container.Guid p.cellID true
            TaskCompletionReasonFailedToRunContainer ""]
        else
          tr

/-- The tail of the method `completeTask`, from `logger.Info("completing-task")` on: the
completion with the run result and `result`, and the forced completion after an invalid
state transition. -/
def completeTaskWithResult (p : taskProcessor) (container : Container) (result : String)
    (tr : Trace) : Trace :=
  let err := p.bbsClient.CompleteTask tr container.Guid p.cellID
    container.RunResult.Failed container.RunResult.FailureReason result
  let tr := tr ++ [Call.CompleteTask container.Guid p.cellID
    container.RunResult.Failed container.RunResult.FailureReason result]
  match err with
  | some e =>
    match ConvertError (some e) with
    | some bbsErr =>
      if bbsErr.Type_ = ErrorType.InvalidStateTransition then
        tr ++ [Call.CompleteTask container.Guid p.cellID true
          TaskCompletionReasonInvalidTransition ""]
      else
        tr
    | none => tr
  | none => tr

/-- The method `completeTask`; `result` is the empty string until a result file is
fetched. -/
def completeTask (rep : RepPackage) (p : taskProcessor) (container : Container)
    (tr : Trace) : Trace :=
  if container.RunResult.Failed && container.RunResult.Retryable then
    tr ++ [Call.RejectTask container.Guid container.RunResult.FailureReason]
  else
    let resultFile := container.Tags.index rep.ResultFileTag
    if !container.RunResult.Failed && resultFile ≠ "" then
      match p.containerDelegate.FetchContainerResultFile tr container.Guid resultFile with
      | Except.error _ =>
        tr ++ [Call.FetchContainerResultFile container.Guid resultFile,
          Call.CompleteTask container.Guid p.cellID true
            TaskCompletionReasonFailedToFetchResult ""]
      | Except.ok result =>
        completeTaskWithResult p container result
          (tr ++ [Call.FetchContainerResultFile container.Guid resultFile])
    else
      completeTaskWithResult p container "" tr

/-- The method `processCompletedContainer`. -/
def processCompletedContainer (rep : RepPackage) (p : taskProcessor) (container : Container)
    (tr : Trace) : Trace :=
  let tr := completeTask rep p container tr
  tr ++ [Call.DeleteContainer container.Guid]

/-- The method `Process`: the calls made for one container, oldest first.  The switch has
no default case. -/
def Process (rep : RepPackage) (p : taskProcessor) (container : Container) : Trace :=
  if container.State = StateReserved then
    processActiveContainer rep p container []
  else if container.State = StateInitializing then
    processActiveContainer rep p container []
  else if container.State = StateCreated then
    processActiveContainer rep p container []
  else if container.State = StateRunning then
    processActiveContainer rep p container []
  else if container.State = StateCompleted then
    processCompletedContainer rep p container []
  else
    []

end taskProcessor

/-! ## `lrp_processor.go`: the evacuation dispatcher -/

/-- The Go type `context.Context`; the dispatcher only passes it on. -/
structure Context where
  Deadline : Option Nat
deriving DecidableEq, Repr

/-- The Go type `lager.Logger`, by its session name; the dispatcher only passes it on. -/
structure Logger where
  SessionName : String
deriving DecidableEq, Repr

/-- An implementation of the interface `LRPProcessor`, by its identity.  Its `Process`
returns nothing, so an invocation shows only as a call. -/
structure LRPProcessor where
  Name : String
deriving DecidableEq, Repr

/-- One call made by the dispatcher: the query of the evacuation signal, or `Process` on
one of its processors with the three arguments. -/
inductive DispatchCall where
  | Evacuating
  | Process (processor : LRPProcessor) (ctx : Context) (logger : Logger)
      (container : Container)
deriving DecidableEq, Repr

/-- The interface `evacuation_context.EvacuationReporter`: the answer of `Evacuating()`,
which may depend on everything the dispatcher did before. -/
structure EvacuationReporter where
  Evacuating : List DispatchCall → Bool

structure lrpProcessor where
  evacuationReporter : EvacuationReporter
  ordinaryProcessor : LRPProcessor
  evacuationProcessor : LRPProcessor

/-- The method `lrpProcessor.Process`: the calls `tr` made before, extended by those of
this invocation. -/
def lrpProcessor.Process (p : lrpProcessor) (ctx : Context) (logger : Logger)
    (container : Container) (tr : List DispatchCall) : List DispatchCall :=
  let evacuating := p.evacuationReporter.Evacuating tr
  let tr := tr ++ [DispatchCall.Evacuating]
  if evacuating then
    tr ++ [DispatchCall.Process p.evacuationProcessor ctx logger container]
  else
    tr ++ [DispatchCall.Process p.ordinaryProcessor ctx logger container]

/-! ## `handlers/perform_handler.go` -/

/-- The record `rep.Work` of the root package, by the identifiers of its work items. -/
structure Work where
  LRPs : List String
  Tasks : List String
  CellID : String
deriving DecidableEq, Repr

/-- The record `rep.FailedWork` of the root package. -/
structure FailedWork where
  LRPs : List String
  Tasks : List String
deriving DecidableEq, Repr

def StatusBadRequest : Nat := 400
def StatusInternalServerError : Nat := 500

/-- The two uses of `encoding/json`: what `Decode` makes of a request body, and what
`Encode` writes for a failed-work document. -/
structure JSONCodec where
  Decode : String → Except GoError Work
  Encode : FailedWork → String

/-- The interface `auctioncellrep.AuctionCellClient`, by the answer of `Perform`. -/
structure AuctionCellClient where
  Perform : Work → Except GoError FailedWork

/-- One call made by the handler: on the performer, or on the response writer. -/
inductive HandlerCall where
  | Perform (work : Work)
  | WriteHeader (status : Nat)
  | Write (body : String)
deriving DecidableEq, Repr

structure perform where
  rep : AuctionCellClient

/-- The method `perform.ServeHTTP` on a request with body `body`: the calls it makes,
oldest first.  The tracing span and the logger are left out. -/
def perform.ServeHTTP (json : JSONCodec) (h : perform) (body : String) : List HandlerCall :=
  match json.Decode body with
  | Except.error _ => [HandlerCall.WriteHeader StatusBadRequest]
  | Except.ok work =>
    match h.rep.Perform work with
    | Except.error _ =>
      [HandlerCall.Perform work, HandlerCall.WriteHeader StatusInternalServerError]
    | Except.ok failedWork =>
      [HandlerCall.Perform work, HandlerCall.Write (json.Encode failedWork)]

/-! ## Sample collaborators, for evaluating the processors on concrete inputs -/

/-- A store client whose answers do not depend on the calls made before: `claim`,
`start` and `complete` answer the calls of those names, `startTask` answers `StartTask`,
`desired` and `task` answer the two fetches; remove, crash and reject succeed. -/
def sampleBBS (claim start complete : Option GoError) (startTask : Bool × Option GoError)
    (desired : Except GoError DesiredLRP) (task : Except GoError Task) : BBSClient where
  ClaimActualLRP := fun _ _ _ => claim
  DesiredLRPByProcessGuid := fun _ _ => desired
  RemoveActualLRP := fun _ _ _ => none
  StartActualLRP := fun _ _ _ _ => start
  CrashActualLRP := fun _ _ _ _ => none
  StartTask := fun _ _ _ => startTask
  TaskByGuid := fun _ _ => task
  CompleteTask := fun _ _ _ _ _ _ => complete
  RejectTask := fun _ _ _ => none

/-- A container delegate with constant answers. -/
def sampleDelegate (run : Bool) (fetch : Except GoError String) : ContainerDelegate where
  RunContainer := fun _ _ => run
  FetchContainerResultFile := fun _ _ _ => fetch

def sampleKey : ActualLRPKey := ⟨"process-guid", 2, "domain"⟩

def sampleInstanceKey : ActualLRPInstanceKey := ⟨"instance-guid", "cell-id"⟩

def sampleNetInfo : ActualLRPNetInfo := ⟨"10.0.0.1", [(8080, 61001)]⟩

def sampleRunRequest : RunRequest := ⟨"container-guid", "run-info"⟩

/-- A `rep` package in which every derivation and construction succeeds; the result-file
tag is the one of the root package, `"result-file"`. -/
def sampleRep : RepPackage where
  ActualLRPKeyFromTags := fun _ => Except.ok sampleKey
  ActualLRPInstanceKeyFromContainer := fun _ _ => Except.ok sampleInstanceKey
  ActualLRPNetInfoFromContainer := fun _ => Except.ok sampleNetInfo
  NewRunRequestFromDesiredLRP := fun _ _ _ _ => Except.ok sampleRunRequest
  NewRunRequestFromTask := fun _ => Except.ok sampleRunRequest
  ResultFileTag := "result-file"

/-- A container in state `state` with run result `result` and tags `tags`. -/
def sampleContainer (state : State) (tags : Tags) (result : ContainerRunResult) : Container :=
  ⟨"container-guid", state, tags, result⟩

def sampleRunResult : ContainerRunResult := ⟨false, "", false, false⟩

/-- A store error of the given kind. -/
def sampleError (kind : ErrorType) : GoError := GoError.bbs ⟨kind, "rejected"⟩

/-- A `rep` package in which the instance key cannot be derived. -/
def sampleRepNoInstanceKey : RepPackage where
  ActualLRPKeyFromTags := fun _ => Except.ok sampleKey
  ActualLRPInstanceKeyFromContainer := fun _ _ =>
    Except.error (GoError.foreign "missing instance guid tag")
  ActualLRPNetInfoFromContainer := fun _ => Except.ok sampleNetInfo
  NewRunRequestFromDesiredLRP := fun _ _ _ _ => Except.ok sampleRunRequest
  NewRunRequestFromTask := fun _ => Except.ok sampleRunRequest
  ResultFileTag := "result-file"

/-- A codec that decodes the body `"work"` only, and encodes a document by the number
of its failed tasks. -/
def sampleJSON : JSONCodec where
  Decode := fun body =>
    if body = "work" then Except.ok ⟨["lrp-1"], ["task-1"], "cell-id"⟩
    else Except.error (GoError.foreign "unexpected end of JSON input")
  Encode := fun failedWork => toString failedWork.Tasks.length

/-- A performer that accepts no task. -/
def samplePerformer : AuctionCellClient where
  Perform := fun work => Except.ok ⟨[], work.Tasks⟩

/-! ## Properties of the ordinary LRP processor -/

section OrdinaryLRP

variable (rep : RepPackage) (p : ordinaryLRPProcessor) (container : Container)
  (lrpKey : ActualLRPKey) (instanceKey : ActualLRPInstanceKey)

theorem errorType_bbs (e : BBSError) : errorType (some (GoError.bbs e)) = some e.Type_ := rfl

theorem errorType_foreign (msg : String) :
    errorType (some (GoError.foreign msg)) = some ErrorType.UnknownError := rfl

theorem errorType_none : errorType none = none := rfl

/-- A failing claim: the claim call, then the delete exactly when the kind is
cannot-be-claimed; the method returns false. -/
theorem claimLRPContainer_error (c : lrpContainer) (tr : Trace) (e : GoError)
    (hclaim : p.bbsClient.ClaimActualLRP tr c.ActualLRPKey c.ActualLRPInstanceKey = some e) :
    p.claimLRPContainer c tr =
      (false, tr ++ Call.ClaimActualLRP c.ActualLRPKey c.ActualLRPInstanceKey ::
        if errorType (some e) = some ErrorType.ActualLRPCannotBeClaimed then
          [Call.DeleteContainer c.Container.Guid]
        else []) := by
  cases e with
  | bbs b =>
    by_cases hb : b.Type_ = ErrorType.ActualLRPCannotBeClaimed <;>
      simp [ordinaryLRPProcessor.claimLRPContainer, hclaim, ConvertError, errorType, hb]
  | foreign msg =>
    simp [ordinaryLRPProcessor.claimLRPContainer, hclaim, ConvertError, errorType]

/-- A successful claim: the claim call only; the method returns true. -/
theorem claimLRPContainer_ok (c : lrpContainer) (tr : Trace)
    (hclaim : p.bbsClient.ClaimActualLRP tr c.ActualLRPKey c.ActualLRPInstanceKey = none) :
    p.claimLRPContainer c tr =
      (true, tr ++ [Call.ClaimActualLRP c.ActualLRPKey c.ActualLRPInstanceKey]) := by
  simp [ordinaryLRPProcessor.claimLRPContainer, hclaim]

/-- The dispatch of `Process` once both keys are derived. -/
theorem ordinary_Process_keys
    (hkey : rep.ActualLRPKeyFromTags container.Tags = Except.ok lrpKey)
    (hinst : rep.ActualLRPInstanceKeyFromContainer container p.cellID = Except.ok instanceKey) :
    ordinaryLRPProcessor.Process rep p container =
      let c := newLRPContainer lrpKey instanceKey container
      if container.State = StateReserved then
        ordinaryLRPProcessor.processReservedContainer rep p c []
      else if container.State = StateInitializing then
        ordinaryLRPProcessor.processInitializingContainer p c []
      else if container.State = StateCreated then
        ordinaryLRPProcessor.processCreatedContainer p c []
      else if container.State = StateRunning then
        ordinaryLRPProcessor.processRunningContainer rep p c []
      else if container.State = StateCompleted then
        ordinaryLRPProcessor.processCompletedContainer p c []
      else
        ordinaryLRPProcessor.processInvalidContainer p c [] := by
  simp [ordinaryLRPProcessor.Process, hkey, hinst, newLRPContainer]

/-- C1: in state reserved, initializing or created, with both keys derived, a failing
claim is the only store call; the container is deleted once, right after it, when the error
kind is cannot-be-claimed, and nothing else is called for any other kind. -/
theorem ordinary_claim_failure (e : GoError)
    (hkey : rep.ActualLRPKeyFromTags container.Tags = Except.ok lrpKey)
    (hinst : rep.ActualLRPInstanceKeyFromContainer container p.cellID = Except.ok instanceKey)
    (hstate : container.State = StateReserved ∨ container.State = StateInitializing ∨
      container.State = StateCreated)
    (hclaim : p.bbsClient.ClaimActualLRP [] lrpKey instanceKey = some e) :
    ordinaryLRPProcessor.Process rep p container =
      if errorType (some e) = some ErrorType.ActualLRPCannotBeClaimed then
        [Call.ClaimActualLRP lrpKey instanceKey, Call.DeleteContainer container.Guid]
      else
        [Call.ClaimActualLRP lrpKey instanceKey] := by
  have hc := claimLRPContainer_error p (newLRPContainer lrpKey instanceKey container) [] e
    hclaim
  rw [ordinary_Process_keys rep p container lrpKey instanceKey hkey hinst]
  rcases hstate with h | h | h <;>
    simp [h, StateReserved, StateInitializing, StateCreated,
      ordinaryLRPProcessor.processReservedContainer,
      ordinaryLRPProcessor.processInitializingContainer,
      ordinaryLRPProcessor.processCreatedContainer, hc] <;>
    split <;> simp [newLRPContainer]

/-- The statement C1 at a created container whose claim is refused as cannot-be-claimed. -/
theorem ordinary_claim_failure_witness :
    ordinaryLRPProcessor.Process sampleRep
        ⟨sampleBBS (some (sampleError ErrorType.ActualLRPCannotBeClaimed)) none none
          (true, none) (Except.ok ⟨"process-guid", ""⟩) (Except.ok ⟨"container-guid", ""⟩),
          sampleDelegate true (Except.ok ""), "cell-id"⟩
        (sampleContainer StateCreated [] sampleRunResult) =
      [Call.ClaimActualLRP sampleKey sampleInstanceKey,
        Call.DeleteContainer "container-guid"] :=
  ordinary_claim_failure sampleRep _ (sampleContainer StateCreated [] sampleRunResult)
    sampleKey sampleInstanceKey (sampleError ErrorType.ActualLRPCannotBeClaimed) rfl rfl
    (Or.inr (Or.inr rfl)) rfl

/-- C2: for a completed container with both keys derived the calls are exactly one store
call, remove-instance when the run result is stopped and crash-instance with the failure
reason otherwise, followed by one delete-container call; no answer of the store enters. -/
theorem ordinary_completed_calls
    (hkey : rep.ActualLRPKeyFromTags container.Tags = Except.ok lrpKey)
    (hinst : rep.ActualLRPInstanceKeyFromContainer container p.cellID = Except.ok instanceKey)
    (hstate : container.State = StateCompleted) :
    ordinaryLRPProcessor.Process rep p container =
      [if container.RunResult.Stopped = true then
          Call.RemoveActualLRP lrpKey instanceKey
        else
          Call.CrashActualLRP lrpKey instanceKey container.RunResult.FailureReason,
        Call.DeleteContainer container.Guid] := by
  rw [ordinary_Process_keys rep p container lrpKey instanceKey hkey hinst]
  by_cases hs : container.RunResult.Stopped = true <;>
    simp [hstate, StateReserved, StateInitializing, StateCreated, StateRunning,
      StateCompleted, ordinaryLRPProcessor.processCompletedContainer, newLRPContainer, hs]

/-- The statement C2 at a completed container that exited on its own, not stopped. -/
theorem ordinary_completed_calls_witness :
    ordinaryLRPProcessor.Process sampleRep
        ⟨sampleBBS none none none (false, none) (Except.ok ⟨"process-guid", ""⟩)
          (Except.ok ⟨"container-guid", ""⟩), sampleDelegate true (Except.ok ""), "cell-id"⟩
        (sampleContainer StateCompleted [] ⟨true, "out of memory", false, false⟩) =
      [Call.CrashActualLRP sampleKey sampleInstanceKey "out of memory",
        Call.DeleteContainer "container-guid"] :=
  ordinary_completed_calls sampleRep _
    (sampleContainer StateCompleted [] ⟨true, "out of memory", false, false⟩)
    sampleKey sampleInstanceKey rfl rfl rfl

/-- C3: for a running container with both keys derived, a failed net-info extraction
gives no call at all; otherwise start-instance is called once with both keys and the
net-info, followed by one stop-container call exactly when the start fails as
cannot-be-started. -/
theorem ordinary_running_calls
    (hkey : rep.ActualLRPKeyFromTags container.Tags = Except.ok lrpKey)
    (hinst : rep.ActualLRPInstanceKeyFromContainer container p.cellID = Except.ok instanceKey)
    (hstate : container.State = StateRunning) :
    ordinaryLRPProcessor.Process rep p container =
      match rep.ActualLRPNetInfoFromContainer container with
      | Except.error _ => []
      | Except.ok netInfo =>
        Call.StartActualLRP lrpKey instanceKey netInfo ::
          if errorType (p.bbsClient.StartActualLRP [] lrpKey instanceKey netInfo) =
              some ErrorType.ActualLRPCannotBeStarted then
            [Call.StopContainer container.Guid]
          else
            [] := by
  rw [ordinary_Process_keys rep p container lrpKey instanceKey hkey hinst]
  simp only [hstate, StateReserved, StateInitializing, StateCreated, StateRunning,
    ordinaryLRPProcessor.processRunningContainer, newLRPContainer]
  simp only [String.reduceEq, if_false, if_true]
  cases rep.ActualLRPNetInfoFromContainer container with
  | error e => rfl
  | ok netInfo =>
    simp only [List.nil_append]
    cases hstart : p.bbsClient.StartActualLRP [] lrpKey instanceKey netInfo with
    | none => simp [ConvertError, errorType]
    | some e =>
      cases e with
      | bbs b =>
        by_cases hb : b.Type_ = ErrorType.ActualLRPCannotBeStarted <;>
          simp [ConvertError, errorType, hb]
      | foreign msg => simp [ConvertError, errorType]

/-- The statement C3 at a running container whose start is refused as
cannot-be-started. -/
theorem ordinary_running_calls_witness :
    ordinaryLRPProcessor.Process sampleRep
        ⟨sampleBBS none (some (sampleError ErrorType.ActualLRPCannotBeStarted)) none
          (false, none) (Except.ok ⟨"process-guid", ""⟩) (Except.ok ⟨"container-guid", ""⟩),
          sampleDelegate true (Except.ok ""), "cell-id"⟩
        (sampleContainer StateRunning [] sampleRunResult) =
      [Call.StartActualLRP sampleKey sampleInstanceKey sampleNetInfo,
        Call.StopContainer "container-guid"] :=
  ordinary_running_calls sampleRep _ (sampleContainer StateRunning [] sampleRunResult)
    sampleKey sampleInstanceKey rfl rfl rfl

/-- C4: for a reserved container with both keys derived, when the claim succeeds, the
desired LRP is fetched and the run request is constructed, the calls are exactly claim,
fetch-desired by process identifier and run-container, followed by remove-instance with
both keys exactly when the run fails to start; no delete and no stop is among them. -/
theorem ordinary_reserved_run (desired : DesiredLRP) (runReq : RunRequest)
    (hkey : rep.ActualLRPKeyFromTags container.Tags = Except.ok lrpKey)
    (hinst : rep.ActualLRPInstanceKeyFromContainer container p.cellID = Except.ok instanceKey)
    (hstate : container.State = StateReserved)
    (hclaim : p.bbsClient.ClaimActualLRP [] lrpKey instanceKey = none)
    (hdesired : p.bbsClient.DesiredLRPByProcessGuid [Call.ClaimActualLRP lrpKey instanceKey]
      lrpKey.ProcessGuid = Except.ok desired)
    (hreq : rep.NewRunRequestFromDesiredLRP container.Guid desired lrpKey instanceKey =
      Except.ok runReq) :
    ordinaryLRPProcessor.Process rep p container =
        ([Call.ClaimActualLRP lrpKey instanceKey,
          Call.DesiredLRPByProcessGuid lrpKey.ProcessGuid, Call.RunContainer runReq] ++
          if p.containerDelegate.RunContainer [Call.ClaimActualLRP lrpKey instanceKey,
              Call.DesiredLRPByProcessGuid lrpKey.ProcessGuid] runReq = true then
            []
          else
            [Call.RemoveActualLRP lrpKey instanceKey]) ∧
      ∀ guid, Call.DeleteContainer guid ∉ ordinaryLRPProcessor.Process rep p container ∧
        Call.StopContainer guid ∉ ordinaryLRPProcessor.Process rep p container := by
  have hc := claimLRPContainer_ok p (newLRPContainer lrpKey instanceKey container) [] hclaim
  rw [ordinary_Process_keys rep p container lrpKey instanceKey hkey hinst]
  simp only [hstate, if_true, ordinaryLRPProcessor.processReservedContainer, hc]
  simp only [newLRPContainer, List.nil_append, hdesired, hreq, List.singleton_append]
  cases p.containerDelegate.RunContainer [Call.ClaimActualLRP lrpKey instanceKey,
    Call.DesiredLRPByProcessGuid lrpKey.ProcessGuid] runReq <;> simp

/-- The statement C4 at a reserved container whose run fails to start. -/
theorem ordinary_reserved_run_witness :
    ordinaryLRPProcessor.Process sampleRep
        ⟨sampleBBS none none none (false, none) (Except.ok ⟨"process-guid", ""⟩)
          (Except.ok ⟨"container-guid", ""⟩), sampleDelegate false (Except.ok ""), "cell-id"⟩
        (sampleContainer StateReserved [] sampleRunResult) =
      [Call.ClaimActualLRP sampleKey sampleInstanceKey,
        Call.DesiredLRPByProcessGuid "process-guid", Call.RunContainer sampleRunRequest,
        Call.RemoveActualLRP sampleKey sampleInstanceKey] :=
  (ordinary_reserved_run sampleRep _ (sampleContainer StateReserved [] sampleRunResult)
    sampleKey sampleInstanceKey ⟨"process-guid", ""⟩ sampleRunRequest rfl rfl rfl rfl rfl
    rfl).1

end OrdinaryLRP

/-! ## Properties of the task processor -/

section TaskProcessor

variable (rep : RepPackage) (p : taskProcessor) (container : Container)

/-- The four states that `Process` hands to `processActiveContainer`. -/
theorem task_Process_active
    (hstate : container.State = StateReserved ∨ container.State = StateInitializing ∨
      container.State = StateCreated ∨ container.State = StateRunning) :
    taskProcessor.Process rep p container =
      taskProcessor.processActiveContainer rep p container [] := by
  rcases hstate with h | h | h | h <;>
    simp [taskProcessor.Process, h, StateReserved, StateInitializing, StateCreated,
      StateRunning]

/-- The state that `Process` hands to `processCompletedContainer`. -/
theorem task_Process_completed (hstate : container.State = StateCompleted) :
    taskProcessor.Process rep p container =
      taskProcessor.completeTask rep p container [] ++
        [Call.DeleteContainer container.Guid] := by
  simp [taskProcessor.Process, hstate, StateReserved, StateInitializing, StateCreated,
    StateRunning, StateCompleted, taskProcessor.processCompletedContainer]

/-- A failing start: the start call, then the delete exactly when the kind is invalid
state transition or resource not found; the method returns false. -/
theorem startTask_error (guid : String) (tr : Trace) (changed : Bool) (e : GoError)
    (hstart : p.bbsClient.StartTask tr guid p.cellID = (changed, some e)) :
    p.startTask guid tr =
      (false, tr ++ Call.StartTask guid p.cellID ::
        if errorType (some e) = some ErrorType.InvalidStateTransition ∨
            errorType (some e) = some ErrorType.ResourceNotFound then
          [Call.DeleteContainer guid]
        else []) := by
  cases e with
  | bbs b =>
    obtain ⟨kind, msg⟩ := b
    cases kind <;> simp [taskProcessor.startTask, hstart, ConvertError, errorType]
  | foreign msg => simp [taskProcessor.startTask, hstart, ConvertError, errorType]

/-- A start without error: the start call only; the method returns the store's
`changed`. -/
theorem startTask_ok (guid : String) (tr : Trace) (changed : Bool)
    (hstart : p.bbsClient.StartTask tr guid p.cellID = (changed, none)) :
    p.startTask guid tr = (changed, tr ++ [Call.StartTask guid p.cellID]) := by
  simp [taskProcessor.startTask, hstart]

/-- C5: in state reserved, initializing, created or running, a failing start-task is
followed by one delete-container call exactly when the error kind is invalid state
transition or resource not found, and by nothing else: no fetch-task, no run, no
complete-task. -/
theorem task_start_failure (changed : Bool) (e : GoError)
    (hstate : container.State = StateReserved ∨ container.State = StateInitializing ∨
      container.State = StateCreated ∨ container.State = StateRunning)
    (hstart : p.bbsClient.StartTask [] container.Guid p.cellID = (changed, some e)) :
    taskProcessor.Process rep p container =
      Call.StartTask container.Guid p.cellID ::
        if errorType (some e) = some ErrorType.InvalidStateTransition ∨
            errorType (some e) = some ErrorType.ResourceNotFound then
          [Call.DeleteContainer container.Guid]
        else
          [] := by
  rw [task_Process_active rep p container hstate]
  simp [taskProcessor.processActiveContainer,
    startTask_error p container.Guid [] changed e hstart]

/-- The statement C5 at an initializing container whose task is not found. -/
theorem task_start_failure_witness :
    taskProcessor.Process sampleRep
        ⟨sampleBBS none none none (false, some (sampleError ErrorType.ResourceNotFound))
          (Except.ok ⟨"process-guid", ""⟩) (Except.ok ⟨"container-guid", ""⟩),
          sampleDelegate true (Except.ok ""), "cell-id"⟩
        (sampleContainer StateInitializing [] sampleRunResult) =
      [Call.StartTask "container-guid" "cell-id", Call.DeleteContainer "container-guid"] :=
  task_start_failure sampleRep _ (sampleContainer StateInitializing [] sampleRunResult)
    false (sampleError ErrorType.ResourceNotFound) (Or.inr (Or.inl rfl)) rfl

/-- C6, the claim fails: a running container whose start-task succeeds with a change and
whose task fetch fails gets the start and the fetch, and no run request. -/
theorem task_start_always_runs_counterexample :
    (sampleBBS none none none (true, none) (Except.ok ⟨"process-guid", ""⟩)
        (Except.error (GoError.foreign "connection refused"))).StartTask []
        "container-guid" "cell-id" = (true, none) ∧
      taskProcessor.Process sampleRep
        ⟨sampleBBS none none none (true, none) (Except.ok ⟨"process-guid", ""⟩)
          (Except.error (GoError.foreign "connection refused")),
          sampleDelegate true (Except.ok ""), "cell-id"⟩
        (sampleContainer StateRunning [] sampleRunResult) =
      [Call.StartTask "container-guid" "cell-id", Call.TaskByGuid "container-guid"] :=
  ⟨rfl, rfl⟩

/-- C6, amended: in an active state, when start-task succeeds with a change the task is
always fetched by the container identifier, as the second call; a run request follows, as
the third call, exactly when the fetch succeeds and the run request is constructed, and
otherwise the fetch is the last call. -/
theorem task_start_success_fetches
    (hstate : container.State = StateReserved ∨ container.State = StateInitializing ∨
      container.State = StateCreated ∨ container.State = StateRunning)
    (hstart : p.bbsClient.StartTask [] container.Guid p.cellID = (true, none)) :
    (taskProcessor.Process rep p container).take 2 =
        [Call.StartTask container.Guid p.cellID, Call.TaskByGuid container.Guid] ∧
      match p.bbsClient.TaskByGuid [Call.StartTask container.Guid p.cellID]
          container.Guid with
      | Except.error _ =>
        taskProcessor.Process rep p container =
          [Call.StartTask container.Guid p.cellID, Call.TaskByGuid container.Guid]
      | Except.ok task =>
        match rep.NewRunRequestFromTask task with
        | Except.error _ =>
          taskProcessor.Process rep p container =
            [Call.StartTask container.Guid p.cellID, Call.TaskByGuid container.Guid]
        | Except.ok runReq =>
          (taskProcessor.Process rep p container).take 3 =
            [Call.StartTask container.Guid p.cellID, Call.TaskByGuid container.Guid,
              Call.RunContainer runReq] := by
  rw [task_Process_active rep p container hstate]
  simp only [taskProcessor.processActiveContainer,
    startTask_ok p container.Guid [] true hstart, List.nil_append]
  cases p.bbsClient.TaskByGuid [Call.StartTask container.Guid p.cellID] container.Guid with
  | error e => simp
  | ok task =>
    cases hreq : rep.NewRunRequestFromTask task with
    | error e => simp [hreq]
    | ok runReq =>
      cases hrun : p.containerDelegate.RunContainer
        [Call.StartTask container.Guid p.cellID, Call.TaskByGuid container.Guid]
        runReq <;> simp [hreq, hrun]

/-- The amended statement C6 at a created container whose task is fetched and run. -/
theorem task_start_success_fetches_witness :
    (taskProcessor.Process sampleRep
        ⟨sampleBBS none none none (true, none) (Except.ok ⟨"process-guid", ""⟩)
          (Except.ok ⟨"container-guid", ""⟩), sampleDelegate true (Except.ok ""), "cell-id"⟩
        (sampleContainer StateCreated [] sampleRunResult)).take 3 =
      [Call.StartTask "container-guid" "cell-id", Call.TaskByGuid "container-guid",
        Call.RunContainer sampleRunRequest] :=
  (task_start_success_fetches sampleRep
    ⟨sampleBBS none none none (true, none) (Except.ok ⟨"process-guid", ""⟩)
      (Except.ok ⟨"container-guid", ""⟩), sampleDelegate true (Except.ok ""), "cell-id"⟩
    (sampleContainer StateCreated [] sampleRunResult)
    (Or.inr (Or.inr (Or.inl rfl))) rfl).2

/-- The completion with the run result, in terms of the kind of the store's answer. -/
theorem completeTaskWithResult_eq (result : String) (tr : Trace) :
    p.completeTaskWithResult container result tr =
      tr ++ Call.CompleteTask container.Guid p.cellID container.RunResult.Failed
          container.RunResult.FailureReason result ::
        if errorType (p.bbsClient.CompleteTask tr container.Guid p.cellID
            container.RunResult.Failed container.RunResult.FailureReason result) =
            some ErrorType.InvalidStateTransition then
          [Call.CompleteTask container.Guid p.cellID true "invalid state transition" ""]
        else
          [] := by
  unfold taskProcessor.completeTaskWithResult
  cases p.bbsClient.CompleteTask tr container.Guid p.cellID container.RunResult.Failed
      container.RunResult.FailureReason result with
  | none => simp [errorType, ConvertError]
  | some e =>
    cases e with
    | bbs b =>
      by_cases hb : b.Type_ = ErrorType.InvalidStateTransition <;>
        simp [errorType, ConvertError, hb, TaskCompletionReasonInvalidTransition]
    | foreign msg => simp [errorType, ConvertError]

/-- C7, the claim fails: a completed container that did not fail and carries the
result-file tag with an empty value gets no fetch-result-file call; the first call is the
completion. -/
theorem task_result_tag_fetch_counterexample :
    ([(sampleRep.ResultFileTag, "")] : Tags).lookup sampleRep.ResultFileTag = some "" ∧
      taskProcessor.Process sampleRep
        ⟨sampleBBS none none none (true, none) (Except.ok ⟨"process-guid", ""⟩)
          (Except.ok ⟨"container-guid", ""⟩), sampleDelegate true (Except.ok "content"),
          "cell-id"⟩
        (sampleContainer StateCompleted [(sampleRep.ResultFileTag, "")]
          ⟨false, "", false, false⟩) =
      [Call.CompleteTask "container-guid" "cell-id" false "" "",
        Call.DeleteContainer "container-guid"] :=
  ⟨rfl, rfl⟩

/-- C7, amended: for a completed container that did not fail and whose result-file tag
has a non-empty value, fetch-result-file with the container identifier and that value is
the first call; when it fails the calls that follow are the completion as failed with
reason "failed to fetch result" and an empty result, and the delete; when it succeeds the
second call is the completion with failed=false, the failure reason of the run result and
the fetched content. -/
theorem task_result_fetch
    (hstate : container.State = StateCompleted)
    (hfailed : container.RunResult.Failed = false)
    (hfile : container.Tags.index rep.ResultFileTag ≠ "") :
    match p.containerDelegate.FetchContainerResultFile [] container.Guid
        (container.Tags.index rep.ResultFileTag) with
    | Except.error _ =>
      taskProcessor.Process rep p container =
        [Call.FetchContainerResultFile container.Guid
            (container.Tags.index rep.ResultFileTag),
          Call.CompleteTask container.Guid p.cellID true "failed to fetch result" "",
          Call.DeleteContainer container.Guid]
    | Except.ok content =>
      (taskProcessor.Process rep p container).take 2 =
        [Call.FetchContainerResultFile container.Guid
            (container.Tags.index rep.ResultFileTag),
          Call.CompleteTask container.Guid p.cellID false
            container.RunResult.FailureReason content] := by
  rw [task_Process_completed rep p container hstate]
  simp only [taskProcessor.completeTask, hfailed, Bool.false_and, Bool.not_false,
    Bool.true_and, hfile, ne_eq, not_false_eq_true, decide_True, if_true, List.nil_append]
  cases hfetch : p.containerDelegate.FetchContainerResultFile [] container.Guid
      (container.Tags.index rep.ResultFileTag) with
  | error e => simp [TaskCompletionReasonFailedToFetchResult]
  | ok content => simp [completeTaskWithResult_eq, hfailed]

/-- The amended statement C7 at a completed container with result file `"out.txt"` whose
fetch fails. -/
theorem task_result_fetch_witness :
    taskProcessor.Process sampleRep
        ⟨sampleBBS none none none (true, none) (Except.ok ⟨"process-guid", ""⟩)
          (Except.ok ⟨"container-guid", ""⟩),
          sampleDelegate true (Except.error (GoError.foreign "no such file")), "cell-id"⟩
        (sampleContainer StateCompleted [("result-file", "out.txt")]
          ⟨false, "", false, false⟩) =
      [Call.FetchContainerResultFile "container-guid" "out.txt",
        Call.CompleteTask "container-guid" "cell-id" true "failed to fetch result" "",
        Call.DeleteContainer "container-guid"] :=
  task_result_fetch sampleRep
    ⟨sampleBBS none none none (true, none) (Except.ok ⟨"process-guid", ""⟩)
      (Except.ok ⟨"container-guid", ""⟩),
      sampleDelegate true (Except.error (GoError.foreign "no such file")), "cell-id"⟩
    (sampleContainer StateCompleted [("result-file", "out.txt")] ⟨false, "", false, false⟩)
    rfl rfl (by decide)

/-- C8, the claim fails: when the result fetch fails, the first complete-task call is the
one with reason "failed to fetch result"; the store refuses it as an invalid state
transition, and no further complete-task call is made. -/
theorem task_complete_retry_counterexample :
    errorType ((sampleBBS none none (some (sampleError ErrorType.InvalidStateTransition))
        (true, none) (Except.ok ⟨"process-guid", ""⟩)
        (Except.ok ⟨"container-guid", ""⟩)).CompleteTask
        [Call.FetchContainerResultFile "container-guid" "out.txt"]
        "container-guid" "cell-id" true "failed to fetch result" "") =
        some ErrorType.InvalidStateTransition ∧
      taskProcessor.Process sampleRep
        ⟨sampleBBS none none (some (sampleError ErrorType.InvalidStateTransition))
          (true, none) (Except.ok ⟨"process-guid", ""⟩) (Except.ok ⟨"container-guid", ""⟩),
          sampleDelegate true (Except.error (GoError.foreign "no such file")), "cell-id"⟩
        (sampleContainer StateCompleted [("result-file", "out.txt")]
          ⟨false, "", false, false⟩) =
      [Call.FetchContainerResultFile "container-guid" "out.txt",
        Call.CompleteTask "container-guid" "cell-id" true "failed to fetch result" "",
        Call.DeleteContainer "container-guid"] :=
  ⟨rfl, rfl⟩

/-- C8, amended: for a completed container that is not rejected and whose result fetch
did not fail (`pre` is empty with an empty `result` when no fetch is made, and is the
fetch call with the fetched `result` otherwise), the first complete-task call carries the
run result; exactly when the store refuses it as an invalid state transition one further
complete-task call follows, with failed=true, reason "invalid state transition" and an
empty result; the delete comes next in both cases, so the retry is never retried. -/
theorem task_complete_retry (pre : Trace) (result : String)
    (hstate : container.State = StateCompleted)
    (hreject : ¬ (container.RunResult.Failed = true ∧ container.RunResult.Retryable = true))
    (hpre : ((container.RunResult.Failed = true ∨ container.Tags.index rep.ResultFileTag = "") ∧
        pre = [] ∧ result = "") ∨
      (container.RunResult.Failed = false ∧ container.Tags.index rep.ResultFileTag ≠ "" ∧
        p.containerDelegate.FetchContainerResultFile [] container.Guid
          (container.Tags.index rep.ResultFileTag) = Except.ok result ∧
        pre = [Call.FetchContainerResultFile container.Guid
          (container.Tags.index rep.ResultFileTag)])) :
    taskProcessor.Process rep p container =
      pre ++ Call.CompleteTask container.Guid p.cellID container.RunResult.Failed
          container.RunResult.FailureReason result ::
        ((if errorType (p.bbsClient.CompleteTask pre container.Guid p.cellID
              container.RunResult.Failed container.RunResult.FailureReason result) =
              some ErrorType.InvalidStateTransition then
            [Call.CompleteTask container.Guid p.cellID true "invalid state transition" ""]
          else
            []) ++ [Call.DeleteContainer container.Guid]) := by
  rw [task_Process_completed rep p container hstate]
  have hrej : (container.RunResult.Failed && container.RunResult.Retryable) = false := by
    cases hf : container.RunResult.Failed <;> cases hr : container.RunResult.Retryable <;>
      simp_all
  rcases hpre with ⟨hno, rfl, rfl⟩ | ⟨hfailed, hfile, hfetch, rfl⟩
  · have hcond : (!container.RunResult.Failed &&
        decide (container.Tags.index rep.ResultFileTag ≠ "")) = false := by
      rcases hno with h | h <;> simp [h]
    simp only [taskProcessor.completeTask, hrej, hcond, completeTaskWithResult_eq]
    simp
  · simp only [taskProcessor.completeTask, hrej, hfailed, hfile, hfetch,
      completeTaskWithResult_eq]
    simp [hfile]

/-- The amended statement C8 at a completed, failed, non-retryable container whose
completion the store refuses as an invalid state transition. -/
theorem task_complete_retry_witness :
    taskProcessor.Process sampleRep
        ⟨sampleBBS none none (some (sampleError ErrorType.InvalidStateTransition))
          (true, none) (Except.ok ⟨"process-guid", ""⟩) (Except.ok ⟨"container-guid", ""⟩),
          sampleDelegate true (Except.ok "content"), "cell-id"⟩
        (sampleContainer StateCompleted [] ⟨true, "exit status 1", false, false⟩) =
      [Call.CompleteTask "container-guid" "cell-id" true "exit status 1" "",
        Call.CompleteTask "container-guid" "cell-id" true "invalid state transition" "",
        Call.DeleteContainer "container-guid"] :=
  task_complete_retry sampleRep
    ⟨sampleBBS none none (some (sampleError ErrorType.InvalidStateTransition))
      (true, none) (Except.ok ⟨"process-guid", ""⟩) (Except.ok ⟨"container-guid", ""⟩),
      sampleDelegate true (Except.ok "content"), "cell-id"⟩
    (sampleContainer StateCompleted [] ⟨true, "exit status 1", false, false⟩) [] ""
    rfl (by decide) (Or.inl ⟨Or.inl rfl, rfl, rfl⟩)

/-- C9: for a completed container whose run result is failed and retryable the calls are
exactly one reject-task call, with the container identifier and the failure reason, and
the delete of the container; the answer of the store to the reject does not enter. -/
theorem task_reject
    (hstate : container.State = StateCompleted)
    (hfailed : container.RunResult.Failed = true)
    (hretry : container.RunResult.Retryable = true) :
    taskProcessor.Process rep p container =
      [Call.RejectTask container.Guid container.RunResult.FailureReason,
        Call.DeleteContainer container.Guid] := by
  rw [task_Process_completed rep p container hstate]
  simp [taskProcessor.completeTask, hfailed, hretry]

/-- The statement C9 at a completed container that failed retryably. -/
theorem task_reject_witness :
    taskProcessor.Process sampleRep
        ⟨sampleBBS none none none (true, none) (Except.ok ⟨"process-guid", ""⟩)
          (Except.ok ⟨"container-guid", ""⟩), sampleDelegate true (Except.ok "content"),
          "cell-id"⟩
        (sampleContainer StateCompleted [("result-file", "out.txt")]
          ⟨true, "insufficient resources", true, false⟩) =
      [Call.RejectTask "container-guid" "insufficient resources",
        Call.DeleteContainer "container-guid"] :=
  task_reject sampleRep _
    (sampleContainer StateCompleted [("result-file", "out.txt")]
      ⟨true, "insufficient resources", true, false⟩) rfl rfl rfl

/-- No branch of `completeTask` deletes a container. -/
theorem completeTask_no_delete (guid : String) :
    Call.DeleteContainer guid ∉ taskProcessor.completeTask rep p container [] := by
  unfold taskProcessor.completeTask
  split
  · simp
  · simp only []
    split
    · split
      · simp
      · rw [completeTaskWithResult_eq]
        split <;> simp
    · rw [completeTaskWithResult_eq]
      split <;> simp

/-- C10: for a completed container, whatever the run result, the tags and the answers of
the store and of the delegate, delete-container is called exactly once, with the
container identifier, and it is the last call. -/
theorem task_completed_deletes_last (hstate : container.State = StateCompleted) :
    ∃ pre : Trace,
      taskProcessor.Process rep p container =
        pre ++ [Call.DeleteContainer container.Guid] ∧
      ∀ guid, Call.DeleteContainer guid ∉ pre :=
  ⟨taskProcessor.completeTask rep p container [],
    task_Process_completed rep p container hstate,
    fun guid => completeTask_no_delete rep p container guid⟩

/-- The statement C10 at a completed container whose result fetch fails and whose
completion the store refuses. -/
theorem task_completed_deletes_last_witness :
    ∃ pre : Trace,
      taskProcessor.Process sampleRep
          ⟨sampleBBS none none (some (sampleError ErrorType.InvalidStateTransition))
            (true, none) (Except.ok ⟨"process-guid", ""⟩) (Except.ok ⟨"container-guid", ""⟩),
            sampleDelegate true (Except.error (GoError.foreign "no such file")), "cell-id"⟩
          (sampleContainer StateCompleted [("result-file", "out.txt")]
            ⟨false, "", false, false⟩) =
        pre ++ [Call.DeleteContainer "container-guid"] ∧
      ∀ guid, Call.DeleteContainer guid ∉ pre :=
  task_completed_deletes_last sampleRep
    ⟨sampleBBS none none (some (sampleError ErrorType.InvalidStateTransition))
      (true, none) (Except.ok ⟨"process-guid", ""⟩) (Except.ok ⟨"container-guid", ""⟩),
      sampleDelegate true (Except.error (GoError.foreign "no such file")), "cell-id"⟩
    (sampleContainer StateCompleted [("result-file", "out.txt")] ⟨false, "", false, false⟩)
    rfl

end TaskProcessor

/-! ## Further properties of the task processor -/

section TaskProcessorRun

variable (rep : RepPackage) (p : taskProcessor) (container : Container)

/-- C11: in an active state, when start-task succeeds with a change, the task is fetched
and the run request is constructed, a run that fails to start is followed by exactly one
complete-task call, with failed=true, reason "failed to run container" and an empty
result, and a run that starts is followed by nothing; the container is not deleted. -/
theorem task_run_failure_completes (task : Task) (runReq : RunRequest)
    (hstate : container.State = StateReserved ∨ container.State = StateInitializing ∨
      container.State = StateCreated ∨ container.State = StateRunning)
    (hstart : p.bbsClient.StartTask [] container.Guid p.cellID = (true, none))
    (htask : p.bbsClient.TaskByGuid [Call.StartTask container.Guid p.cellID]
      container.Guid = Except.ok task)
    (hreq : rep.NewRunRequestFromTask task = Except.ok runReq) :
    taskProcessor.Process rep p container =
        ([Call.StartTask container.Guid p.cellID, Call.TaskByGuid container.Guid,
          Call.RunContainer runReq] ++
          if p.containerDelegate.RunContainer [Call.StartTask container.Guid p.cellID,
              Call.TaskByGuid container.Guid] runReq = true then
            []
          else
            [Call.CompleteTask container.Guid p.cellID true "failed to run container" ""]) ∧
      ∀ guid, Call.DeleteContainer guid ∉ taskProcessor.Process rep p container := by
  rw [task_Process_active rep p container hstate]
  simp only [taskProcessor.processActiveContainer,
    startTask_ok p container.Guid [] true hstart, List.nil_append, htask, hreq,
    List.singleton_append, TaskCompletionReasonFailedToRunContainer]
  cases hrun : p.containerDelegate.RunContainer
    [Call.StartTask container.Guid p.cellID, Call.TaskByGuid container.Guid] runReq <;>
    simp

/-- The statement C11 at a reserved container whose run fails to start. -/
theorem task_run_failure_completes_witness :
    taskProcessor.Process sampleRep
        ⟨sampleBBS none none none (true, none) (Except.ok ⟨"process-guid", ""⟩)
          (Except.ok ⟨"container-guid", ""⟩), sampleDelegate false (Except.ok ""), "cell-id"⟩
        (sampleContainer StateReserved [] sampleRunResult) =
      [Call.StartTask "container-guid" "cell-id", Call.TaskByGuid "container-guid",
        Call.RunContainer sampleRunRequest,
        Call.CompleteTask "container-guid" "cell-id" true "failed to run container" ""] :=
  (task_run_failure_completes sampleRep
    ⟨sampleBBS none none none (true, none) (Except.ok ⟨"process-guid", ""⟩)
      (Except.ok ⟨"container-guid", ""⟩), sampleDelegate false (Except.ok ""), "cell-id"⟩
    (sampleContainer StateReserved [] sampleRunResult) ⟨"container-guid", ""⟩
    sampleRunRequest (Or.inl rfl) rfl rfl rfl).1

/-- C12: in an active state, when start-task returns without error and reports no
change, the start-task call with the container identifier and the cell identifier is the
only call. -/
theorem task_start_no_change
    (hstate : container.State = StateReserved ∨ container.State = StateInitializing ∨
      container.State = StateCreated ∨ container.State = StateRunning)
    (hstart : p.bbsClient.StartTask [] container.Guid p.cellID = (false, none)) :
    taskProcessor.Process rep p container = [Call.StartTask container.Guid p.cellID] := by
  rw [task_Process_active rep p container hstate]
  simp [taskProcessor.processActiveContainer,
    startTask_ok p container.Guid [] false hstart]

/-- The statement C12 at a running container whose task is already started. -/
theorem task_start_no_change_witness :
    taskProcessor.Process sampleRep
        ⟨sampleBBS none none none (false, none) (Except.ok ⟨"process-guid", ""⟩)
          (Except.ok ⟨"container-guid", ""⟩), sampleDelegate true (Except.ok ""), "cell-id"⟩
        (sampleContainer StateRunning [] sampleRunResult) =
      [Call.StartTask "container-guid" "cell-id"] :=
  task_start_no_change sampleRep
    ⟨sampleBBS none none none (false, none) (Except.ok ⟨"process-guid", ""⟩)
      (Except.ok ⟨"container-guid", ""⟩), sampleDelegate true (Except.ok ""), "cell-id"⟩
    (sampleContainer StateRunning [] sampleRunResult) (Or.inr (Or.inr (Or.inr rfl))) rfl

/-- Outside the five handled states the switch of the task processor does nothing. -/
theorem task_Process_other
    (hres : container.State ≠ StateReserved) (hini : container.State ≠ StateInitializing)
    (hcre : container.State ≠ StateCreated) (hrun : container.State ≠ StateRunning)
    (hcom : container.State ≠ StateCompleted) :
    taskProcessor.Process rep p container = [] := by
  simp [taskProcessor.Process, hres, hini, hcre, hrun, hcom]

/-- The calls of `processActiveContainer`, by the answers of the collaborators. -/
theorem processActiveContainer_eq :
    taskProcessor.processActiveContainer rep p container [] =
      match p.bbsClient.StartTask [] container.Guid p.cellID with
      | (_, some e) =>
        Call.StartTask container.Guid p.cellID ::
          if errorType (some e) = some ErrorType.InvalidStateTransition ∨
              errorType (some e) = some ErrorType.ResourceNotFound then
            [Call.DeleteContainer container.Guid]
          else []
      | (false, none) => [Call.StartTask container.Guid p.cellID]
      | (true, none) =>
        match p.bbsClient.TaskByGuid [Call.StartTask container.Guid p.cellID]
            container.Guid with
        | Except.error _ =>
          [Call.StartTask container.Guid p.cellID, Call.TaskByGuid container.Guid]
        | Except.ok task =>
          match rep.NewRunRequestFromTask task with
          | Except.error _ =>
            [Call.StartTask container.Guid p.cellID, Call.TaskByGuid container.Guid]
          | Except.ok runReq =>
            [Call.StartTask container.Guid p.cellID, Call.TaskByGuid container.Guid,
              Call.RunContainer runReq] ++
              if p.containerDelegate.RunContainer [Call.StartTask container.Guid p.cellID,
                  Call.TaskByGuid container.Guid] runReq = true then
                []
              else
                [Call.CompleteTask container.Guid p.cellID true
                  "failed to run container" ""] := by
  rcases hstart : p.bbsClient.StartTask [] container.Guid p.cellID with ⟨changed, _ | e⟩
  · cases changed
    · simp [taskProcessor.processActiveContainer,
        startTask_ok p container.Guid [] false hstart]
    · simp only [taskProcessor.processActiveContainer,
        startTask_ok p container.Guid [] true hstart, List.nil_append]
      cases htask : p.bbsClient.TaskByGuid [Call.StartTask container.Guid p.cellID]
          container.Guid with
      | error e => simp
      | ok task =>
        cases hreq : rep.NewRunRequestFromTask task with
        | error e => simp [hreq]
        | ok runReq =>
          cases hrun : p.containerDelegate.RunContainer
            [Call.StartTask container.Guid p.cellID, Call.TaskByGuid container.Guid]
            runReq <;>
            simp [hreq, hrun, TaskCompletionReasonFailedToRunContainer]
  · simp [taskProcessor.processActiveContainer,
      startTask_error p container.Guid [] changed e hstart]

/-- The calls of `completeTask`, by the run result, the tag and the answers of the
collaborators. -/
theorem completeTask_eq :
    taskProcessor.completeTask rep p container [] =
      if container.RunResult.Failed = true ∧ container.RunResult.Retryable = true then
        [Call.RejectTask container.Guid container.RunResult.FailureReason]
      else if container.RunResult.Failed = false ∧
          container.Tags.index rep.ResultFileTag ≠ "" then
        match p.containerDelegate.FetchContainerResultFile [] container.Guid
            (container.Tags.index rep.ResultFileTag) with
        | Except.error _ =>
          [Call.FetchContainerResultFile container.Guid
              (container.Tags.index rep.ResultFileTag),
            Call.CompleteTask container.Guid p.cellID true "failed to fetch result" ""]
        | Except.ok result =>
          p.completeTaskWithResult container result
            [Call.FetchContainerResultFile container.Guid
              (container.Tags.index rep.ResultFileTag)]
      else
        p.completeTaskWithResult container "" [] := by
  unfold taskProcessor.completeTask
  cases hf : container.RunResult.Failed <;> cases hr : container.RunResult.Retryable <;>
    by_cases hfile : container.Tags.index rep.ResultFileTag = "" <;>
    simp [hfile, TaskCompletionReasonFailedToFetchResult]

/-- An active container gets at most one complete-task call. -/
theorem processActiveContainer_completeTask_le :
    (taskProcessor.processActiveContainer rep p container []).countP Call.isCompleteTask
      ≤ 1 := by
  rw [processActiveContainer_eq]
  split
  · split <;> simp [Call.isCompleteTask]
  · simp [Call.isCompleteTask]
  · split
    · simp [Call.isCompleteTask]
    · split
      · simp [Call.isCompleteTask]
      · split <;> simp [Call.isCompleteTask]

/-- A completed container gets at most two complete-task calls. -/
theorem completeTask_completeTask_le :
    (taskProcessor.completeTask rep p container []).countP Call.isCompleteTask ≤ 2 := by
  rw [completeTask_eq]
  split
  · simp [Call.isCompleteTask]
  · split
    · split
      · simp [Call.isCompleteTask]
      · rw [completeTaskWithResult_eq]
        split <;> simp [Call.isCompleteTask]
    · rw [completeTaskWithResult_eq]
      split <;> simp [Call.isCompleteTask]

/-- Every `Process` call of the task processor makes at most two complete-task calls. -/
theorem task_Process_completeTask_le :
    (taskProcessor.Process rep p container).countP Call.isCompleteTask ≤ 2 := by
  by_cases hact : container.State = StateReserved ∨ container.State = StateInitializing ∨
      container.State = StateCreated ∨ container.State = StateRunning
  · rw [task_Process_active rep p container hact]
    exact le_trans (processActiveContainer_completeTask_le rep p container) (by decide)
  · by_cases hcom : container.State = StateCompleted
    · rw [task_Process_completed rep p container hcom, List.countP_append]
      have h := completeTask_completeTask_le rep p container
      simpa [Call.isCompleteTask] using h
    · rw [task_Process_other rep p container (fun h => hact (Or.inl h))
        (fun h => hact (Or.inr (Or.inl h))) (fun h => hact (Or.inr (Or.inr (Or.inl h))))
        (fun h => hact (Or.inr (Or.inr (Or.inr h)))) hcom]
      simp

/-- C18: for a completed container that did not fail, with a non-empty result-file tag,
whose result fetch fails, the calls are exactly the fetch, the completion as failed with
reason "failed to fetch result" and an empty result, and the delete: the answer of the
store to that completion is not looked at, so it is never retried.  And every `Process`
call, for any container, makes at most two complete-task calls. -/
theorem task_fetch_failure_no_retry (e : GoError)
    (hstate : container.State = StateCompleted)
    (hfailed : container.RunResult.Failed = false)
    (hfile : container.Tags.index rep.ResultFileTag ≠ "")
    (hfetch : p.containerDelegate.FetchContainerResultFile [] container.Guid
      (container.Tags.index rep.ResultFileTag) = Except.error e) :
    taskProcessor.Process rep p container =
        [Call.FetchContainerResultFile container.Guid
            (container.Tags.index rep.ResultFileTag),
          Call.CompleteTask container.Guid p.cellID true "failed to fetch result" "",
          Call.DeleteContainer container.Guid] ∧
      ∀ other : Container,
        (taskProcessor.Process rep p other).countP Call.isCompleteTask ≤ 2 := by
  refine ⟨?_, fun other => task_Process_completeTask_le rep p other⟩
  rw [task_Process_completed rep p container hstate, completeTask_eq]
  simp [hfailed, hfile, hfetch]

/-- The statement C18 at a completed container with result file `"out.txt"` whose fetch
fails and whose completion the store refuses as an invalid state transition. -/
theorem task_fetch_failure_no_retry_witness :
    taskProcessor.Process sampleRep
        ⟨sampleBBS none none (some (sampleError ErrorType.InvalidStateTransition))
          (true, none) (Except.ok ⟨"process-guid", ""⟩) (Except.ok ⟨"container-guid", ""⟩),
          sampleDelegate true (Except.error (GoError.foreign "no such file")), "cell-id"⟩
        (sampleContainer StateCompleted [("result-file", "out.txt")]
          ⟨false, "", false, false⟩) =
      [Call.FetchContainerResultFile "container-guid" "out.txt",
        Call.CompleteTask "container-guid" "cell-id" true "failed to fetch result" "",
        Call.DeleteContainer "container-guid"] :=
  (task_fetch_failure_no_retry sampleRep
    ⟨sampleBBS none none (some (sampleError ErrorType.InvalidStateTransition))
      (true, none) (Except.ok ⟨"process-guid", ""⟩) (Except.ok ⟨"container-guid", ""⟩),
      sampleDelegate true (Except.error (GoError.foreign "no such file")), "cell-id"⟩
    (sampleContainer StateCompleted [("result-file", "out.txt")] ⟨false, "", false, false⟩)
    (GoError.foreign "no such file") rfl rfl (by decide) rfl).1

/-- C19: for a completed container that is not both failed and retryable, a
fetch-result-file call is made exactly when the run did not fail and the value of the
result-file tag is not empty; when it is not made, the first complete-task call carries
the failed flag and the failure reason of the run result, with an empty result. -/
theorem task_fetch_iff
    (hstate : container.State = StateCompleted)
    (hreject : ¬ (container.RunResult.Failed = true ∧ container.RunResult.Retryable = true)) :
    ((taskProcessor.Process rep p container).any Call.isFetchContainerResultFile = true ↔
        container.RunResult.Failed = false ∧ container.Tags.index rep.ResultFileTag ≠ "") ∧
      (¬ (container.RunResult.Failed = false ∧
          container.Tags.index rep.ResultFileTag ≠ "") →
        (taskProcessor.Process rep p container).find? Call.isCompleteTask =
          some (Call.CompleteTask container.Guid p.cellID container.RunResult.Failed
            container.RunResult.FailureReason "")) := by
  rw [task_Process_completed rep p container hstate, completeTask_eq]
  simp only [hreject, if_false]
  by_cases hcond : container.RunResult.Failed = false ∧
      container.Tags.index rep.ResultFileTag ≠ ""
  · simp only [hcond, and_self, ne_eq, not_false_eq_true, if_true, iff_true, not_true,
      false_implies, and_true]
    split
    · simp [Call.isFetchContainerResultFile]
    · rw [completeTaskWithResult_eq]
      simp [Call.isFetchContainerResultFile]
  · simp only [hcond, if_false, iff_false, not_false_eq_true, true_implies]
    rw [completeTaskWithResult_eq]
    constructor
    · split <;> simp [Call.isFetchContainerResultFile]
    · simp [Call.isCompleteTask]

/-- The statement C19 at a completed container that failed without being retryable and
carries a result-file tag: no fetch, and the completion carries the run result. -/
theorem task_fetch_iff_witness :
    (taskProcessor.Process sampleRep
        ⟨sampleBBS none none none (true, none) (Except.ok ⟨"process-guid", ""⟩)
          (Except.ok ⟨"container-guid", ""⟩), sampleDelegate true (Except.ok "content"),
          "cell-id"⟩
        (sampleContainer StateCompleted [("result-file", "out.txt")]
          ⟨true, "exit status 1", false, false⟩)).find? Call.isCompleteTask =
      some (Call.CompleteTask "container-guid" "cell-id" true "exit status 1" "") :=
  (task_fetch_iff sampleRep
    ⟨sampleBBS none none none (true, none) (Except.ok ⟨"process-guid", ""⟩)
      (Except.ok ⟨"container-guid", ""⟩), sampleDelegate true (Except.ok "content"),
      "cell-id"⟩
    (sampleContainer StateCompleted [("result-file", "out.txt")]
      ⟨true, "exit status 1", false, false⟩) rfl (by decide)).2 (by decide)

end TaskProcessorRun

/-! ## Further properties of the ordinary LRP processor -/

section OrdinaryLRPRun

variable (rep : RepPackage) (p : ordinaryLRPProcessor) (container : Container)
  (lrpKey : ActualLRPKey) (instanceKey : ActualLRPInstanceKey)

/-- The calls of `processReservedContainer`, by the answers of the collaborators. -/
theorem processReservedContainer_eq :
    ordinaryLRPProcessor.processReservedContainer rep p
        (newLRPContainer lrpKey instanceKey container) [] =
      match p.bbsClient.ClaimActualLRP [] lrpKey instanceKey with
      | some e =>
        Call.ClaimActualLRP lrpKey instanceKey ::
          if errorType (some e) = some ErrorType.ActualLRPCannotBeClaimed then
            [Call.DeleteContainer container.Guid]
          else []
      | none =>
        match p.bbsClient.DesiredLRPByProcessGuid [Call.ClaimActualLRP lrpKey instanceKey]
            lrpKey.ProcessGuid with
        | Except.error _ =>
          [Call.ClaimActualLRP lrpKey instanceKey,
            Call.DesiredLRPByProcessGuid lrpKey.ProcessGuid]
        | Except.ok desired =>
          match rep.NewRunRequestFromDesiredLRP container.Guid desired lrpKey
              instanceKey with
          | Except.error _ =>
            [Call.ClaimActualLRP lrpKey instanceKey,
              Call.DesiredLRPByProcessGuid lrpKey.ProcessGuid]
          | Except.ok runReq =>
            [Call.ClaimActualLRP lrpKey instanceKey,
              Call.DesiredLRPByProcessGuid lrpKey.ProcessGuid, Call.RunContainer runReq] ++
              if p.containerDelegate.RunContainer [Call.ClaimActualLRP lrpKey instanceKey,
                  Call.DesiredLRPByProcessGuid lrpKey.ProcessGuid] runReq = true then
                []
              else
                [Call.RemoveActualLRP lrpKey instanceKey] := by
  cases hclaim : p.bbsClient.ClaimActualLRP [] lrpKey instanceKey with
  | some e =>
    have hc := claimLRPContainer_error p (newLRPContainer lrpKey instanceKey container) []
      e hclaim
    simp only [ordinaryLRPProcessor.processReservedContainer, hc]
    simp [newLRPContainer]
  | none =>
    have hc := claimLRPContainer_ok p (newLRPContainer lrpKey instanceKey container) []
      hclaim
    simp only [ordinaryLRPProcessor.processReservedContainer, hc]
    simp only [newLRPContainer, List.nil_append]
    cases hdesired : p.bbsClient.DesiredLRPByProcessGuid
        [Call.ClaimActualLRP lrpKey instanceKey] lrpKey.ProcessGuid with
    | error e => simp
    | ok desired =>
      cases hreq : rep.NewRunRequestFromDesiredLRP container.Guid desired lrpKey
          instanceKey with
      | error e => simp [hreq]
      | ok runReq =>
        cases hrun : p.containerDelegate.RunContainer
          [Call.ClaimActualLRP lrpKey instanceKey,
            Call.DesiredLRPByProcessGuid lrpKey.ProcessGuid] runReq <;>
          simp [hreq, hrun]

/-- C13: in every state, when the instance key or the instance-execution key cannot be
derived, the processor makes no call at all. -/
theorem ordinary_no_keys_no_calls
    (hkeys : (∃ e, rep.ActualLRPKeyFromTags container.Tags = Except.error e) ∨
      (∃ e, rep.ActualLRPInstanceKeyFromContainer container p.cellID = Except.error e)) :
    ordinaryLRPProcessor.Process rep p container = [] := by
  unfold ordinaryLRPProcessor.Process
  rcases hkeys with ⟨e, he⟩ | ⟨e, he⟩
  · simp [he]
  · cases rep.ActualLRPKeyFromTags container.Tags <;> simp [he]

/-- The statement C13 at a completed container whose instance key cannot be derived. -/
theorem ordinary_no_keys_no_calls_witness :
    ordinaryLRPProcessor.Process sampleRepNoInstanceKey
        ⟨sampleBBS none none none (true, none) (Except.ok ⟨"process-guid", ""⟩)
          (Except.ok ⟨"container-guid", ""⟩), sampleDelegate true (Except.ok ""), "cell-id"⟩
        (sampleContainer StateCompleted [] sampleRunResult) = [] :=
  ordinary_no_keys_no_calls sampleRepNoInstanceKey
    ⟨sampleBBS none none none (true, none) (Except.ok ⟨"process-guid", ""⟩)
      (Except.ok ⟨"container-guid", ""⟩), sampleDelegate true (Except.ok ""), "cell-id"⟩
    (sampleContainer StateCompleted [] sampleRunResult)
    (Or.inr ⟨GoError.foreign "missing instance guid tag", rfl⟩)

/-- C17: for a reserved container with both keys derived whose claim succeeded, when the
fetch of the desired LRP fails or the run request cannot be constructed, the calls are
exactly the claim and the fetch: no run, no remove and no delete follows. -/
theorem ordinary_reserved_no_compensation
    (hkey : rep.ActualLRPKeyFromTags container.Tags = Except.ok lrpKey)
    (hinst : rep.ActualLRPInstanceKeyFromContainer container p.cellID = Except.ok instanceKey)
    (hstate : container.State = StateReserved)
    (hclaim : p.bbsClient.ClaimActualLRP [] lrpKey instanceKey = none)
    (hstop : (∃ e, p.bbsClient.DesiredLRPByProcessGuid
          [Call.ClaimActualLRP lrpKey instanceKey] lrpKey.ProcessGuid = Except.error e) ∨
      (∃ desired e, p.bbsClient.DesiredLRPByProcessGuid
          [Call.ClaimActualLRP lrpKey instanceKey] lrpKey.ProcessGuid = Except.ok desired ∧
        rep.NewRunRequestFromDesiredLRP container.Guid desired lrpKey instanceKey =
          Except.error e)) :
    ordinaryLRPProcessor.Process rep p container =
      [Call.ClaimActualLRP lrpKey instanceKey,
        Call.DesiredLRPByProcessGuid lrpKey.ProcessGuid] := by
  rw [ordinary_Process_keys rep p container lrpKey instanceKey hkey hinst]
  simp only [hstate, if_true, processReservedContainer_eq, hclaim]
  rcases hstop with ⟨e, he⟩ | ⟨desired, e, hd, he⟩
  · simp [he]
  · simp [hd, he]

/-- The statement C17 at a reserved container whose desired LRP cannot be fetched. -/
theorem ordinary_reserved_no_compensation_witness :
    ordinaryLRPProcessor.Process sampleRep
        ⟨sampleBBS none none none (true, none)
          (Except.error (sampleError ErrorType.ResourceNotFound))
          (Except.ok ⟨"container-guid", ""⟩), sampleDelegate true (Except.ok ""), "cell-id"⟩
        (sampleContainer StateReserved [] sampleRunResult) =
      [Call.ClaimActualLRP sampleKey sampleInstanceKey,
        Call.DesiredLRPByProcessGuid "process-guid"] :=
  ordinary_reserved_no_compensation sampleRep
    ⟨sampleBBS none none none (true, none)
      (Except.error (sampleError ErrorType.ResourceNotFound))
      (Except.ok ⟨"container-guid", ""⟩), sampleDelegate true (Except.ok ""), "cell-id"⟩
    (sampleContainer StateReserved [] sampleRunResult) sampleKey sampleInstanceKey
    rfl rfl rfl rfl (Or.inl ⟨sampleError ErrorType.ResourceNotFound, rfl⟩)

end OrdinaryLRPRun

/-! ## The evacuation dispatcher and the perform handler -/

section Dispatch

/-- C14: every `Process` call of the dispatcher queries the evacuation signal once and
then calls `Process` once, with the context, logger and container it received, on the
evacuation processor when the signal is true and on the ordinary processor when it is
false; it makes no other call, and the choice is a function of that one answer. -/
theorem lrpProcessor_dispatch (p : lrpProcessor) (ctx : Context) (logger : Logger)
    (container : Container) (tr : List DispatchCall) :
    lrpProcessor.Process p ctx logger container tr =
      tr ++ [DispatchCall.Evacuating,
        DispatchCall.Process
          (if p.evacuationReporter.Evacuating tr = true then p.evacuationProcessor
            else p.ordinaryProcessor)
          ctx logger container] := by
  unfold lrpProcessor.Process
  cases p.evacuationReporter.Evacuating tr <;> simp

/-- C16: a body that does not decode gives status 400 and nothing else, the performer
not being called; a decoded body whose performance fails gives the call of the performer
and status 500, with no body written; a successful performance gives the call of the
performer and the encoded failed-work document as the body, with no status written. -/
theorem perform_ServeHTTP_cases (json : JSONCodec) (h : perform) (body : String) :
    (∀ e, json.Decode body = Except.error e →
        perform.ServeHTTP json h body = [HandlerCall.WriteHeader 400]) ∧
      (∀ work e, json.Decode body = Except.ok work → h.rep.Perform work = Except.error e →
        perform.ServeHTTP json h body =
          [HandlerCall.Perform work, HandlerCall.WriteHeader 500]) ∧
      (∀ work failedWork, json.Decode body = Except.ok work →
        h.rep.Perform work = Except.ok failedWork →
        perform.ServeHTTP json h body =
          [HandlerCall.Perform work, HandlerCall.Write (json.Encode failedWork)]) := by
  refine ⟨fun e hd => ?_, fun work e hd hp => ?_, fun work failedWork hd hp => ?_⟩
  · simp [perform.ServeHTTP, hd, StatusBadRequest]
  · simp [perform.ServeHTTP, hd, hp, StatusInternalServerError]
  · simp [perform.ServeHTTP, hd, hp]

/-- The statement C16 at a malformed body. -/
theorem perform_ServeHTTP_cases_witness :
    perform.ServeHTTP sampleJSON ⟨samplePerformer⟩ "wor" = [HandlerCall.WriteHeader 400] :=
  (perform_ServeHTTP_cases sampleJSON ⟨samplePerformer⟩ "wor").1
    (GoError.foreign "unexpected end of JSON input") rfl

end Dispatch

/-! ## Properties of both processors -/

section BothProcessors

variable (rep : RepPackage) (p : ordinaryLRPProcessor) (q : taskProcessor)
  (container : Container)

/-- C15: for a container whose state is none of reserved, initializing, created, running
and completed, the ordinary LRP processor makes no call, whether or not the keys are
derived, and the task processor makes no call. -/
theorem unhandled_state_no_calls
    (hres : container.State ≠ StateReserved) (hini : container.State ≠ StateInitializing)
    (hcre : container.State ≠ StateCreated) (hrun : container.State ≠ StateRunning)
    (hcom : container.State ≠ StateCompleted) :
    ordinaryLRPProcessor.Process rep p container = [] ∧
      taskProcessor.Process rep q container = [] := by
  refine ⟨?_, task_Process_other rep q container hres hini hcre hrun hcom⟩
  unfold ordinaryLRPProcessor.Process
  cases rep.ActualLRPKeyFromTags container.Tags with
  | error e => rfl
  | ok lrpKey =>
    cases rep.ActualLRPInstanceKeyFromContainer container p.cellID with
    | error e => rfl
    | ok instanceKey =>
      simp [newLRPContainer, hres, hini, hcre, hrun, hcom,
        ordinaryLRPProcessor.processInvalidContainer]

/-- The statement C15 at a container in the invalid state, with both keys derived. -/
theorem unhandled_state_no_calls_witness :
    ordinaryLRPProcessor.Process sampleRep
        ⟨sampleBBS none none none (true, none) (Except.ok ⟨"process-guid", ""⟩)
          (Except.ok ⟨"container-guid", ""⟩), sampleDelegate true (Except.ok ""), "cell-id"⟩
        (sampleContainer StateInvalid [] sampleRunResult) = [] ∧
      taskProcessor.Process sampleRep
        ⟨sampleBBS none none none (true, none) (Except.ok ⟨"process-guid", ""⟩)
          (Except.ok ⟨"container-guid", ""⟩), sampleDelegate true (Except.ok ""), "cell-id"⟩
        (sampleContainer StateInvalid [] sampleRunResult) = [] :=
  unhandled_state_no_calls sampleRep
    ⟨sampleBBS none none none (true, none) (Except.ok ⟨"process-guid", ""⟩)
      (Except.ok ⟨"container-guid", ""⟩), sampleDelegate true (Except.ok ""), "cell-id"⟩
    ⟨sampleBBS none none none (true, none) (Except.ok ⟨"process-guid", ""⟩)
      (Except.ok ⟨"container-guid", ""⟩), sampleDelegate true (Except.ok ""), "cell-id"⟩
    (sampleContainer StateInvalid [] sampleRunResult)
    (by decide) (by decide) (by decide) (by decide) (by decide)

/-- A claim makes no run request. -/
theorem claimLRPContainer_no_run (c : lrpContainer) :
    ∀ call ∈ (p.claimLRPContainer c []).2, call.isRunContainer = false := by
  cases hclaim : p.bbsClient.ClaimActualLRP [] c.ActualLRPKey c.ActualLRPInstanceKey with
  | some e =>
    rw [claimLRPContainer_error p c [] e hclaim]
    split <;> simp [Call.isRunContainer]
  | none =>
    rw [claimLRPContainer_ok p c [] hclaim]
    simp [Call.isRunContainer]

/-- Outside the state reserved the ordinary LRP processor makes no run request. -/
theorem ordinary_no_run_outside_reserved (hres : container.State ≠ StateReserved) :
    ∀ call ∈ ordinaryLRPProcessor.Process rep p container,
      call.isRunContainer = false := by
  unfold ordinaryLRPProcessor.Process
  cases rep.ActualLRPKeyFromTags container.Tags with
  | error e => simp
  | ok lrpKey =>
    cases rep.ActualLRPInstanceKeyFromContainer container p.cellID with
    | error e => simp
    | ok instanceKey =>
      simp only [newLRPContainer, hres, if_false]
      split_ifs
      · exact claimLRPContainer_no_run p _
      · exact claimLRPContainer_no_run p _
      · unfold ordinaryLRPProcessor.processRunningContainer
        split
        · simp
        · simp only []
          split
          · split <;> simp [Call.isRunContainer]
          · simp [Call.isRunContainer]
      · by_cases hs : container.RunResult.Stopped = true <;>
          simp [ordinaryLRPProcessor.processCompletedContainer, hs, Call.isRunContainer]
      · simp [ordinaryLRPProcessor.processInvalidContainer]

/-- Outside the four active states the task processor makes no run request. -/
theorem task_no_run_outside_active
    (hact : ¬ (container.State = StateReserved ∨ container.State = StateInitializing ∨
      container.State = StateCreated ∨ container.State = StateRunning)) :
    ∀ call ∈ taskProcessor.Process rep q container, call.isRunContainer = false := by
  by_cases hcom : container.State = StateCompleted
  · rw [task_Process_completed rep q container hcom, completeTask_eq]
    split
    · simp [Call.isRunContainer]
    · split
      · split
        · simp [Call.isRunContainer]
        · rw [completeTaskWithResult_eq]
          split <;> simp [Call.isRunContainer]
      · rw [completeTaskWithResult_eq]
        split <;> simp [Call.isRunContainer]
  · rw [task_Process_other rep q container (fun h => hact (Or.inl h))
      (fun h => hact (Or.inr (Or.inl h))) (fun h => hact (Or.inr (Or.inr (Or.inl h))))
      (fun h => hact (Or.inr (Or.inr (Or.inr h)))) hcom]
    simp

/-- A trace without run request counts none. -/
theorem countP_isRunContainer_zero (tr : Trace)
    (h : ∀ call ∈ tr, call.isRunContainer = false) :
    tr.countP Call.isRunContainer = 0 := by
  rw [List.countP_eq_zero]
  intro call hcall
  simp [h call hcall]

/-- A trace without run request has none. -/
theorem any_isRunContainer_false (tr : Trace)
    (h : ∀ call ∈ tr, call.isRunContainer = false) :
    tr.any Call.isRunContainer = false := by
  rw [List.any_eq_false]
  intro call hcall
  simp [h call hcall]

/-- The ordinary LRP processor runs a container at most once, and only when reserved,
after a successful claim and a successful fetch of the desired LRP, as its third call. -/
theorem ordinary_claim_before_run :
    (ordinaryLRPProcessor.Process rep p container).countP Call.isRunContainer ≤ 1 ∧
      ((ordinaryLRPProcessor.Process rep p container).any Call.isRunContainer = true →
        container.State = StateReserved ∧
        ∃ lrpKey instanceKey desired runReq,
          rep.ActualLRPKeyFromTags container.Tags = Except.ok lrpKey ∧
          rep.ActualLRPInstanceKeyFromContainer container p.cellID =
            Except.ok instanceKey ∧
          p.bbsClient.ClaimActualLRP [] lrpKey instanceKey = none ∧
          p.bbsClient.DesiredLRPByProcessGuid [Call.ClaimActualLRP lrpKey instanceKey]
            lrpKey.ProcessGuid = Except.ok desired ∧
          (ordinaryLRPProcessor.Process rep p container).take 3 =
            [Call.ClaimActualLRP lrpKey instanceKey,
              Call.DesiredLRPByProcessGuid lrpKey.ProcessGuid,
              Call.RunContainer runReq]) := by
  by_cases hres : container.State = StateReserved
  · cases hkey : rep.ActualLRPKeyFromTags container.Tags with
    | error e => simp [ordinaryLRPProcessor.Process, hkey]
    | ok lrpKey =>
      cases hinst : rep.ActualLRPInstanceKeyFromContainer container p.cellID with
      | error e => simp [ordinaryLRPProcessor.Process, hkey, hinst]
      | ok instanceKey =>
        rw [ordinary_Process_keys rep p container lrpKey instanceKey hkey hinst]
        simp only [hres, if_true, processReservedContainer_eq, true_and]
        cases hclaim : p.bbsClient.ClaimActualLRP [] lrpKey instanceKey with
        | some e =>
          simp only []
          split <;> simp [Call.isRunContainer]
        | none =>
          simp only []
          cases hdesired : p.bbsClient.DesiredLRPByProcessGuid
              [Call.ClaimActualLRP lrpKey instanceKey] lrpKey.ProcessGuid with
          | error e => simp [Call.isRunContainer]
          | ok desired =>
            simp only []
            cases hreq : rep.NewRunRequestFromDesiredLRP container.Guid desired lrpKey
                instanceKey with
            | error e => simp [Call.isRunContainer]
            | ok runReq =>
              simp only []
              constructor
              · split <;> simp [Call.isRunContainer]
              · intro _
                refine ⟨lrpKey, instanceKey, desired, runReq, rfl, rfl, hclaim, hdesired, ?_⟩
                simp
  · have h := ordinary_no_run_outside_reserved rep p container hres
    rw [countP_isRunContainer_zero _ h, any_isRunContainer_false _ h]
    simp

/-- The task processor runs a container at most once, and only in an active state, after
a start-task that succeeded with a change and a successful fetch of the task, as its
third call. -/
theorem task_start_before_run :
    (taskProcessor.Process rep q container).countP Call.isRunContainer ≤ 1 ∧
      ((taskProcessor.Process rep q container).any Call.isRunContainer = true →
        (container.State = StateReserved ∨ container.State = StateInitializing ∨
          container.State = StateCreated ∨ container.State = StateRunning) ∧
        q.bbsClient.StartTask [] container.Guid q.cellID = (true, none) ∧
        ∃ task runReq,
          q.bbsClient.TaskByGuid [Call.StartTask container.Guid q.cellID]
            container.Guid = Except.ok task ∧
          (taskProcessor.Process rep q container).take 3 =
            [Call.StartTask container.Guid q.cellID, Call.TaskByGuid container.Guid,
              Call.RunContainer runReq]) := by
  by_cases hact : container.State = StateReserved ∨ container.State = StateInitializing ∨
      container.State = StateCreated ∨ container.State = StateRunning
  · rw [task_Process_active rep q container hact, processActiveContainer_eq]
    simp only [hact, true_and]
    rcases hstart : q.bbsClient.StartTask [] container.Guid q.cellID with
      ⟨changed, _ | e⟩
    · cases changed
      · simp [Call.isRunContainer]
      · simp only []
        cases htask : q.bbsClient.TaskByGuid [Call.StartTask container.Guid q.cellID]
            container.Guid with
        | error e => simp [Call.isRunContainer]
        | ok task =>
          simp only []
          cases hreq : rep.NewRunRequestFromTask task with
          | error e => simp [Call.isRunContainer]
          | ok runReq =>
            simp only []
            constructor
            · split <;> simp [Call.isRunContainer]
            · intro _
              exact ⟨True.intro, task, runReq, rfl, by simp⟩
    · simp only []
      split <;> simp [Call.isRunContainer]
  · have h := task_no_run_outside_active rep q container hact
    rw [countP_isRunContainer_zero _ h, any_isRunContainer_false _ h]
    simp

/-- C20: for every container and every answer of the store and of the delegate, a
`Process` call issues run-container at most once, and only after obtaining ownership in
that call: the ordinary LRP processor only in state reserved, after a successful claim
and a successful fetch of the desired LRP; the task processor only in an active state,
after a start-task that succeeded with a change and a successful fetch of the task. -/
theorem claim_before_run :
    ((ordinaryLRPProcessor.Process rep p container).countP Call.isRunContainer ≤ 1 ∧
      ((ordinaryLRPProcessor.Process rep p container).any Call.isRunContainer = true →
        container.State = StateReserved ∧
        ∃ lrpKey instanceKey desired runReq,
          rep.ActualLRPKeyFromTags container.Tags = Except.ok lrpKey ∧
          rep.ActualLRPInstanceKeyFromContainer container p.cellID =
            Except.ok instanceKey ∧
          p.bbsClient.ClaimActualLRP [] lrpKey instanceKey = none ∧
          p.bbsClient.DesiredLRPByProcessGuid [Call.ClaimActualLRP lrpKey instanceKey]
            lrpKey.ProcessGuid = Except.ok desired ∧
          (ordinaryLRPProcessor.Process rep p container).take 3 =
            [Call.ClaimActualLRP lrpKey instanceKey,
              Call.DesiredLRPByProcessGuid lrpKey.ProcessGuid,
              Call.RunContainer runReq])) ∧
    ((taskProcessor.Process rep q container).countP Call.isRunContainer ≤ 1 ∧
      ((taskProcessor.Process rep q container).any Call.isRunContainer = true →
        (container.State = StateReserved ∨ container.State = StateInitializing ∨
          container.State = StateCreated ∨ container.State = StateRunning) ∧
        q.bbsClient.StartTask [] container.Guid q.cellID = (true, none) ∧
        ∃ task runReq,
          q.bbsClient.TaskByGuid [Call.StartTask container.Guid q.cellID]
            container.Guid = Except.ok task ∧
          (taskProcessor.Process rep q container).take 3 =
            [Call.StartTask container.Guid q.cellID, Call.TaskByGuid container.Guid,
              Call.RunContainer runReq])) :=
  ⟨ordinary_claim_before_run rep p container, task_start_before_run rep q container⟩

/-- The statement C20 at a reserved container that both processors run: each of them
obtained ownership first. -/
theorem claim_before_run_witness :
    (StateReserved = StateReserved ∧
      ∃ lrpKey instanceKey desired runReq,
        sampleRep.ActualLRPKeyFromTags [] = Except.ok lrpKey ∧
        sampleRep.ActualLRPInstanceKeyFromContainer
          (sampleContainer StateReserved [] sampleRunResult) "cell-id" =
          Except.ok instanceKey ∧
        (sampleBBS none none none (true, none) (Except.ok ⟨"process-guid", ""⟩)
          (Except.ok ⟨"container-guid", ""⟩)).ClaimActualLRP [] lrpKey instanceKey = none ∧
        (sampleBBS none none none (true, none) (Except.ok ⟨"process-guid", ""⟩)
          (Except.ok ⟨"container-guid", ""⟩)).DesiredLRPByProcessGuid
          [Call.ClaimActualLRP lrpKey instanceKey] lrpKey.ProcessGuid = Except.ok desired ∧
        (ordinaryLRPProcessor.Process sampleRep
          ⟨sampleBBS none none none (true, none) (Except.ok ⟨"process-guid", ""⟩)
            (Except.ok ⟨"container-guid", ""⟩), sampleDelegate true (Except.ok ""),
            "cell-id"⟩
          (sampleContainer StateReserved [] sampleRunResult)).take 3 =
          [Call.ClaimActualLRP lrpKey instanceKey,
            Call.DesiredLRPByProcessGuid lrpKey.ProcessGuid, Call.RunContainer runReq]) ∧
      (taskProcessor.Process sampleRep
        ⟨sampleBBS none none none (true, none) (Except.ok ⟨"process-guid", ""⟩)
          (Except.ok ⟨"container-guid", ""⟩), sampleDelegate true (Except.ok ""),
          "cell-id"⟩
        (sampleContainer StateReserved [] sampleRunResult)).countP Call.isRunContainer ≤ 1 :=
  ⟨(claim_before_run sampleRep
      ⟨sampleBBS none none none (true, none) (Except.ok ⟨"process-guid", ""⟩)
        (Except.ok ⟨"container-guid", ""⟩), sampleDelegate true (Except.ok ""), "cell-id"⟩
      ⟨sampleBBS none none none (true, none) (Except.ok ⟨"process-guid", ""⟩)
        (Except.ok ⟨"container-guid", ""⟩), sampleDelegate true (Except.ok ""), "cell-id"⟩
      (sampleContainer StateReserved [] sampleRunResult)).1.2 rfl,
    (claim_before_run sampleRep
      ⟨sampleBBS none none none (true, none) (Except.ok ⟨"process-guid", ""⟩)
        (Except.ok ⟨"container-guid", ""⟩), sampleDelegate true (Except.ok ""), "cell-id"⟩
      ⟨sampleBBS none none none (true, none) (Except.ok ⟨"process-guid", ""⟩)
        (Except.ok ⟨"container-guid", ""⟩), sampleDelegate true (Except.ok ""), "cell-id"⟩
      (sampleContainer StateReserved [] sampleRunResult)).2.1⟩

end BothProcessors




end Rep
